import Mathlib

/-!
Verification of the monthly metrics analysis pipeline of the Report-Server
repository: statistics (`MetricsAnalyzer._calculate_stats`), trend
classification (`MetricsAnalyzer._analyze_trend`), CPU metric aggregation
(`MetricsAnalyzer._analyze_cpu_metrics`), the summary projection
(`MetricsAnalyzer.get_summary_statistics`), threshold checking
(`ThresholdChecker`), and the recommendation engine
(`RecommendationEngine`).

Numbers are modelled by `ℚ` (the Python code computes with floats; every
concrete input used below is exact in binary floating point or decided at
a sign/ordering level that is robust to rounding).  Python `dict` values
that may be absent are modelled by `Option`; a dict used as a mapping with
insertion order is modelled by an association list.
-/

namespace Report

/-- `StatSummary`: result shape of `MetricsAnalyzer._calculate_stats`.
All fields are `None` exactly when the input series is empty. -/
structure Stats where
  min : Option ℚ
  max : Option ℚ
  mean : Option ℚ
  median : Option ℚ
  std : Option ℚ
deriving DecidableEq

/-- `np.min` over the nonempty series `x :: xs`. -/
def listMin (x : ℚ) (xs : List ℚ) : ℚ := xs.foldl Min.min x

/-- `np.max` over the nonempty series `x :: xs`. -/
def listMax (x : ℚ) (xs : List ℚ) : ℚ := xs.foldl Max.max x

/-- `np.mean`: arithmetic mean. -/
def listMean (l : List ℚ) : ℚ := l.sum / (l.length : ℚ)

/-- Ascending sort used by `np.median`.  (Any comparison sort produces the
same list of rationals, so a stable insertion sort is an exact model.) -/
def sortQ (l : List ℚ) : List ℚ := List.insertionSort (· ≤ ·) l

/-- `np.median`: middle element of the sorted series for odd length, the
average of the two middle elements for even length. -/
def listMedian (l : List ℚ) : ℚ :=
  let s := sortQ l
  let n := s.length
  if n % 2 = 1 then s.getD (n / 2) 0
  else (s.getD (n / 2 - 1) 0 + s.getD (n / 2) 0) / 2

/-- `np.std` is the square root of this quantity (population variance).
The square root of a rational is irrational in general; no claim mentions
`std`, so the `std` field carries the variance, which determines the
standard deviation uniquely. -/
def listVariance (l : List ℚ) : ℚ :=
  (l.map (fun v => (v - listMean l) * (v - listMean l))).sum / (l.length : ℚ)

/-- `MetricsAnalyzer._calculate_stats`: all-`None` summary for an empty
series, otherwise min/max/mean/median/std. -/
def calculate_stats : List ℚ → Stats
  | [] => { min := none, max := none, mean := none, median := none, std := none }
  | x :: xs =>
    { min := some (listMin x xs)
      max := some (listMax x xs)
      mean := some (listMean (x :: xs))
      median := some (listMedian (x :: xs))
      std := some (listVariance (x :: xs)) }

/-- Pair each value with its index, starting at `i`: models
`x = np.arange(len(values))` zipped against `values`. -/
def idxFrom (i : ℕ) : List ℚ → List (ℕ × ℚ)
  | [] => []
  | y :: ys => (i, y) :: idxFrom (i + 1) ys

/-- The first-degree coefficient of `np.polyfit(x, y, 1)` with
`x = 0 .. n-1`: the classical closed form of the least-squares slope. -/
def lsSlope (values : List ℚ) : ℚ :=
  let pts := idxFrom 0 values
  let n : ℚ := values.length
  let sx : ℚ := (pts.map (fun p => ((p.1 : ℚ)))).sum
  let sy : ℚ := values.sum
  let sxy : ℚ := (pts.map (fun p => (p.1 : ℚ) * p.2)).sum
  let sxx : ℚ := (pts.map (fun p => (p.1 : ℚ) * (p.1 : ℚ))).sum
  (n * sxy - sx * sy) / (n * sxx - sx * sx)

/-- `MetricsAnalyzer._analyze_trend`.  Note the source computes
`threshold = mean_value * 0.01` with NO absolute value. -/
def analyze_trend (values : List ℚ) : String :=
  if values.length < 2 then "stable"
  else
    let slope := lsSlope values
    let mean_value := listMean values
    let threshold := mean_value * (1 / 100)
    if |slope| < threshold then "stable"
    else if slope > 0 then "increasing"
    else "decreasing"

/-- `cpu_data.get('load_average', {})`: the three optional load fields. -/
structure LoadAverage where
  one_min : Option ℚ
  five_min : Option ℚ
  fifteen_min : Option ℚ
deriving DecidableEq

/-- `metrics.get('cpu', {})` contents. -/
structure CpuData where
  usage_percent : Option ℚ
  load_average : LoadAverage
deriving DecidableEq

/-- One daily metrics dictionary, restricted to the parts read by
`MetricsAnalyzer._analyze_cpu_metrics` (which only accesses the `cpu`
key).  `cpu = none` covers both an absent `cpu` key and an empty (falsy)
`cpu` dict, which the source skips identically. -/
structure Snapshot where
  timestamp : Option String
  cpu : Option CpuData
deriving DecidableEq

/-- The `cpu_usage` list built by the collection loop of
`_analyze_cpu_metrics`: `usage_percent` of every snapshot where present;
a missing value contributes nothing (never zero). -/
def collect_cpu_usage : List Snapshot → List ℚ
  | [] => []
  | m :: ms =>
    (match m.cpu with
     | some c => (match c.usage_percent with | some u => [u] | none => [])
     | none => []) ++ collect_cpu_usage ms

/-- The `load_1m` list built by the same loop. -/
def collect_load_1m : List Snapshot → List ℚ
  | [] => []
  | m :: ms =>
    (match m.cpu with
     | some c => (match c.load_average.one_min with | some u => [u] | none => [])
     | none => []) ++ collect_load_1m ms

/-- The `load_5m` list built by the same loop. -/
def collect_load_5m : List Snapshot → List ℚ
  | [] => []
  | m :: ms =>
    (match m.cpu with
     | some c => (match c.load_average.five_min with | some u => [u] | none => [])
     | none => []) ++ collect_load_5m ms

/-- The `load_15m` list built by the same loop. -/
def collect_load_15m : List Snapshot → List ℚ
  | [] => []
  | m :: ms =>
    (match m.cpu with
     | some c => (match c.load_average.fifteen_min with | some u => [u] | none => [])
     | none => []) ++ collect_load_15m ms

/-- Per-interval load-average statistics of the CPU analysis. -/
structure LoadStats where
  one_min : Stats
  five_min : Stats
  fifteen_min : Stats
deriving DecidableEq

/-- The `cpu` entry of the monthly analysis; `trend` is present only when
at least two usage points were collected. -/
structure CpuAnalysis where
  usage : Stats
  load_average : LoadStats
  trend : Option String
deriving DecidableEq

/-- `MetricsAnalyzer._analyze_cpu_metrics`. -/
def analyze_cpu_metrics (metrics_list : List Snapshot) : CpuAnalysis :=
  let cpu_usage := collect_cpu_usage metrics_list
  { usage := calculate_stats cpu_usage
    load_average :=
      { one_min := calculate_stats (collect_load_1m metrics_list)
        five_min := calculate_stats (collect_load_5m metrics_list)
        fifteen_min := calculate_stats (collect_load_15m metrics_list) }
    trend := if 1 < cpu_usage.length then some (analyze_trend cpu_usage) else none }

/-- Per-series entry (`usage_percent`/`usage_bytes`) of the memory
analysis; `trend` present only when at least two points were collected. -/
structure MemPart where
  usage_percent : Stats
  usage_bytes : Stats
  trend : Option String
deriving DecidableEq

/-- The `memory` entry of the monthly analysis. -/
structure MemAnalysis where
  ram : MemPart
  swap : MemPart
deriving DecidableEq

/-- Per-mountpoint entry of the monthly disk analysis. -/
structure DiskStats where
  device : Option String
  fstype : Option String
  usage_percent : Stats
  used_bytes : Stats
  free_bytes : Stats
  trend : Option String
deriving DecidableEq

/-- The `period` entry of the monthly analysis. -/
structure Period where
  days_collected : ℕ
  start_date : Option String
  end_date : Option String
deriving DecidableEq

/-- Output shape of `MetricsAnalyzer.analyze_monthly_metrics`.
`cpu = none` / `memory = none` model the empty-analysis dict (empty input),
whose sub-dict lookups are all falsy downstream.  The `disk` mapping keeps
dict insertion order as an association list. -/
structure MonthlyAnalysis where
  period : Option Period
  cpu : Option CpuAnalysis
  memory : Option MemAnalysis
  disk : List (String × DiskStats)
deriving DecidableEq

/-- `cpu_summary` produced by `get_summary_statistics`. -/
structure CpuSummary where
  avg_usage : Option ℚ
  max_usage : Option ℚ
  trend : String
deriving DecidableEq

/-- `memory_summary` produced by `get_summary_statistics`. -/
structure MemorySummary where
  avg_ram_usage : Option ℚ
  max_ram_usage : Option ℚ
  avg_swap_usage : Option ℚ
  trend : String
deriving DecidableEq

/-- `disk_summary` produced by `get_summary_statistics`. -/
structure DiskSummary where
  avg_usage : Option ℚ
  max_usage : Option ℚ
  trend : String
deriving DecidableEq

/-- Output of `get_summary_statistics`; `none` sub-summaries model the
empty dicts the source initialises them to. -/
structure Summary where
  collection_period : Option Period
  cpu_summary : Option CpuSummary
  memory_summary : Option MemorySummary
  disk_summary : Option DiskSummary
deriving DecidableEq

/-- `MetricsAnalyzer.get_summary_statistics`.  The guards
`if cpu.get('usage'):`, `if memory.get('ram', {}).get('usage_percent'):`
and `if root_disk.get('usage_percent'):` test dict truthiness; a stats
dict is always non-empty (it always carries its five keys), so each guard
holds exactly when the corresponding analysis entry exists.  The disk
entry is `disk.get('/', disk.get('/home', {}))`: mountpoint `/` first,
else `/home`, else empty. -/
def get_summary_statistics (analysis : MonthlyAnalysis) : Summary :=
  { collection_period := analysis.period
    cpu_summary :=
      match analysis.cpu with
      | some c =>
        some { avg_usage := c.usage.mean
               max_usage := c.usage.max
               trend := c.trend.getD "stable" }
      | none => none
    memory_summary :=
      match analysis.memory with
      | some m =>
        some { avg_ram_usage := m.ram.usage_percent.mean
               max_ram_usage := m.ram.usage_percent.max
               avg_swap_usage := m.swap.usage_percent.mean
               trend := m.ram.trend.getD "stable" }
      | none => none
    disk_summary :=
      match (match List.lookup "/" analysis.disk with
             | some d => some d
             | none => List.lookup "/home" analysis.disk) with
      | some root_disk =>
        some { avg_usage := root_disk.usage_percent.mean
               max_usage := root_disk.usage_percent.max
               trend := root_disk.trend.getD "stable" }
      | none => none }

/-- One threshold breach, as appended by `ThresholdChecker`. -/
structure Violation where
  metric : String
  value : ℚ
  threshold : ℚ
  severity : String
  message : String
deriving DecidableEq

/-- Exact rational rendering of a value inside a message.  The source
formats the measured value with `:.1f` and the limit with `str`; the
message text is never inspected by any claim, so rounding to one decimal
is abstracted to exact rendering. -/
def fmt (q : ℚ) : String := toString q

/-- Message shape of the percent-based checks (CPU, memory, disk). -/
def pctMsg (desc : String) (v : ℚ) (severity : String) (l : ℚ) : String :=
  desc ++ " (" ++ fmt v ++ "%) exceeds " ++ severity ++ " threshold (" ++ fmt l ++ "%)"

/-- Message shape of the count-based checks (logs). -/
def cntMsg (desc : String) (v : ℚ) (severity : String) (l : ℚ) : String :=
  desc ++ " (" ++ fmt v ++ ") exceeds " ++ severity ++ " threshold (" ++ fmt l ++ ")"

/-- The `{'avg_usage': .., 'max_usage': ..}` limits dict for CPU; a key
that is absent is `none`.  An absent enclosing dict behaves exactly like a
dict with no keys, i.e. all-`none` limits. -/
structure CpuLimits where
  avg_usage : Option ℚ
  max_usage : Option ℚ
deriving DecidableEq

/-- `thresholds['cpu']`: independent critical and warning limits. -/
structure CpuThresholds where
  critical : CpuLimits
  warning : CpuLimits
deriving DecidableEq

/-- The `{'ram_usage': .., 'swap_usage': ..}` limits dict for memory. -/
structure MemLimits where
  ram_usage : Option ℚ
  swap_usage : Option ℚ
deriving DecidableEq

/-- `thresholds['memory']`. -/
structure MemoryThresholds where
  critical : MemLimits
  warning : MemLimits
deriving DecidableEq

/-- The `{'usage': ..}` limits dict for disk. -/
structure DiskLimits where
  usage : Option ℚ
deriving DecidableEq

/-- `thresholds['disk']`. -/
structure DiskThresholds where
  critical : DiskLimits
  warning : DiskLimits
deriving DecidableEq

/-- The `{'error_count': .., 'kernel_errors': ..}` limits dict for logs. -/
structure LogLimits where
  error_count : Option ℚ
  kernel_errors : Option ℚ
deriving DecidableEq

/-- `thresholds['logs']`. -/
structure LogThresholds where
  critical : LogLimits
  warning : LogLimits
deriving DecidableEq

/-- The full threshold configuration handed to `ThresholdChecker`. -/
structure Thresholds where
  cpu : CpuThresholds
  memory : MemoryThresholds
  disk : DiskThresholds
  logs : LogThresholds
deriving DecidableEq

/-- The CPU/memory check pattern
`if value and value >= limits.get(key, 100): append({.., 'threshold': limits[key], ..})`.
`v ≠ 0` models the truthiness guard (`None` and `0.0` are falsy),
`limit.getD 100` models `.get(key, 100)`, and the `none` branch of the
inner match models the unconditional `limits[key]` index inside the
violation literal, which raises `KeyError` when the key is absent. -/
def checkValue (value : Option ℚ) (limit : Option ℚ)
    (key metric severity desc : String) : Except String (List Violation) :=
  match value with
  | none => .ok []
  | some v =>
    if v ≠ 0 ∧ limit.getD 100 ≤ v then
      match limit with
      | some l =>
        .ok [{ metric := metric, value := v, threshold := l,
               severity := severity, message := pctMsg desc v severity l }]
      | none => .error ("KeyError: " ++ key)
    else .ok []

/-- `ThresholdChecker._check_cpu_thresholds`.  `none` covers the
`if not usage_stats: return violations` early exit (empty cpu analysis);
order: critical avg, critical max, warning avg, warning max. -/
def check_cpu_thresholds (cpu_analysis : Option CpuAnalysis)
    (th : CpuThresholds) : Except String (List Violation) :=
  match cpu_analysis with
  | none => .ok []
  | some c => do
    let avg_usage := c.usage.mean
    let max_usage := c.usage.max
    let v1 ← checkValue avg_usage th.critical.avg_usage "avg_usage"
      "CPU Average Usage" "critical" "CPU average usage"
    let v2 ← checkValue max_usage th.critical.max_usage "max_usage"
      "CPU Maximum Usage" "critical" "CPU maximum usage"
    let v3 ← checkValue avg_usage th.warning.avg_usage "avg_usage"
      "CPU Average Usage" "warning" "CPU average usage"
    let v4 ← checkValue max_usage th.warning.max_usage "max_usage"
      "CPU Maximum Usage" "warning" "CPU maximum usage"
    pure (v1 ++ v2 ++ v3 ++ v4)

/-- `ThresholdChecker._check_memory_thresholds`.  The source also reads
`max_ram = ram_stats.get('max')` but never checks it; order: critical ram,
critical swap, warning ram, warning swap. -/
def check_memory_thresholds (memory_analysis : Option MemAnalysis)
    (th : MemoryThresholds) : Except String (List Violation) :=
  match memory_analysis with
  | none => .ok []
  | some m => do
    let avg_ram := m.ram.usage_percent.mean
    let avg_swap := m.swap.usage_percent.mean
    let v1 ← checkValue avg_ram th.critical.ram_usage "ram_usage"
      "RAM Average Usage" "critical" "RAM average usage"
    let v2 ← checkValue avg_swap th.critical.swap_usage "swap_usage"
      "SWAP Average Usage" "critical" "SWAP average usage"
    let v3 ← checkValue avg_ram th.warning.ram_usage "ram_usage"
      "RAM Average Usage" "warning" "RAM average usage"
    let v4 ← checkValue avg_swap th.warning.swap_usage "swap_usage"
      "SWAP Average Usage" "warning" "SWAP average usage"
    pure (v1 ++ v2 ++ v3 ++ v4)

/-- One disk comparison `if avg_usage >= limits.get('usage', 100)` with
the unconditional `limits['usage']` index inside the violation literal. -/
def checkDiskLimit (v : ℚ) (limit : Option ℚ) (mountpoint severity : String) :
    Except String (List Violation) :=
  if limit.getD 100 ≤ v then
    match limit with
    | some l =>
      .ok [{ metric := "Disk Usage (" ++ mountpoint ++ ")", value := v,
             threshold := l, severity := severity,
             message := pctMsg ("Disk usage for " ++ mountpoint) v severity l }]
    | none => .error ("KeyError: usage")
  else .ok []

/-- The loop body of `ThresholdChecker._check_disk_thresholds` for one
mountpoint: `if not avg_usage: continue` skips a `None` or `0` average
before any limit is consulted.  `max_usage` is read but never used. -/
def check_disk_entry (th : DiskThresholds) (mountpoint : String)
    (stats : DiskStats) : Except String (List Violation) :=
  match stats.usage_percent.mean with
  | none => .ok []
  | some v =>
    if v = 0 then .ok []
    else do
      let v1 ← checkDiskLimit v th.critical.usage mountpoint "critical"
      let v2 ← checkDiskLimit v th.warning.usage mountpoint "warning"
      pure (v1 ++ v2)

/-- `ThresholdChecker._check_disk_thresholds`: iterate every mountpoint
of the analysis in insertion order, accumulating violations. -/
def check_disk_thresholds (disk_analysis : List (String × DiskStats))
    (th : DiskThresholds) : Except String (List Violation) :=
  match disk_analysis with
  | [] => .ok []
  | (mp, stats) :: rest => do
    let v ← check_disk_entry th mp stats
    let vs ← check_disk_thresholds rest th
    pure (v ++ vs)

/-- Log-analysis summary consumed by the checker:
`summary.total_errors` and `kernel_log.error_count`, both defaulting to
`0` when absent. -/
structure LogAnalysis where
  total_errors : Option ℚ
  kernel_error_count : Option ℚ
deriving DecidableEq

/-- One log comparison `value >= limits.get(key, float('inf'))`: an
absent key compares against positive infinity, which no finite value
reaches, so the check never fires and the subsequent `limits[key]` index
is unreachable — modelled by the `none` branch producing nothing. -/
def checkLogLimit (v : ℚ) (limit : Option ℚ) (metric severity desc : String) :
    List Violation :=
  match limit with
  | some l =>
    if l ≤ v then
      [{ metric := metric, value := v, threshold := l, severity := severity,
         message := cntMsg desc v severity l }]
    else []
  | none => []

/-- `ThresholdChecker._check_log_thresholds`: critical total errors,
critical kernel errors, warning total errors (no warning kernel tier). -/
def check_log_thresholds (log_analysis : LogAnalysis) (th : LogThresholds) :
    List Violation :=
  let total_errors := log_analysis.total_errors.getD 0
  let kernel_errors := log_analysis.kernel_error_count.getD 0
  checkLogLimit total_errors th.critical.error_count
    "Total Log Errors" "critical" "Total log errors"
  ++ checkLogLimit kernel_errors th.critical.kernel_errors
    "Kernel Errors" "critical" "Kernel errors"
  ++ checkLogLimit total_errors th.warning.error_count
    "Total Log Errors" "warning" "Total log errors"

/-- `ThresholdChecker.check_all_thresholds`: CPU, memory, disk, then logs
(only when a log analysis was supplied); a `KeyError` raised by any check
aborts the whole evaluation, modelled by `Except`. -/
def check_all_thresholds (analysis : MonthlyAnalysis)
    (log_analysis : Option LogAnalysis) (th : Thresholds) :
    Except String (List Violation) := do
  let v1 ← check_cpu_thresholds analysis.cpu th.cpu
  let v2 ← check_memory_thresholds analysis.memory th.memory
  let v3 ← check_disk_thresholds analysis.disk th.disk
  let v4 :=
    match log_analysis with
    | some la => check_log_thresholds la th.logs
    | none => []
  pure (v1 ++ v2 ++ v3 ++ v4)

/-- One recommendation record produced by `RecommendationEngine`. -/
structure Recommendation where
  category : String
  priority : String
  title : String
  description : String
  actions : List String
deriving DecidableEq

/-- Character-list version of: the pattern is a leading segment of the
text. -/
def chStarts : List Char → List Char → Bool
  | [], _ => true
  | _ :: _, [] => false
  | a :: as, b :: bs => a == b && chStarts as bs

/-- Substring search over character lists. -/
def hasSubAux (pat : List Char) : List Char → Bool
  | [] => chStarts pat []
  | c :: rest => chStarts pat (c :: rest) || hasSubAux pat rest

/-- The Python substring test `pat in s`. -/
def strContains (s pat : String) : Bool := hasSubAux pat.data s.data

/-- The loop body of `RecommendationEngine._recommendations_from_violations`
for one violation: the metric label is matched against the substrings
`CPU`, `RAM`, `SWAP`, `Disk`, `Log Errors`, `Kernel` in that order (an
`elif` chain); the first match selects a template, no match appends
nothing.  Every template computes priority as
`'high' if severity == 'critical' else 'medium'` except the Kernel one,
whose priority is the constant `'critical'`. -/
def recFromViolation (v : Violation) : List Recommendation :=
  if strContains v.metric "CPU" then
    [{ category := "CPU"
       priority := if v.severity = "critical" then "high" else "medium"
       title := "High CPU Usage Detected"
       description := v.message
       actions :=
         ["Identify CPU-intensive processes using top or htop",
          "Consider optimizing or limiting resource-heavy applications",
          "Review cron jobs and scheduled tasks",
          "Consider upgrading CPU or adding more cores if sustained high usage"] }]
  else if strContains v.metric "RAM" then
    [{ category := "Memory"
       priority := if v.severity = "critical" then "high" else "medium"
       title := "High Memory Usage Detected"
       description := v.message
       actions :=
         ["Identify memory-intensive processes using top or htop",
          "Check for memory leaks in applications",
          "Review and optimize application configurations",
          "Consider adding more RAM if consistently high usage",
          "Enable or tune swap if not already configured"] }]
  else if strContains v.metric "SWAP" then
    [{ category := "Memory"
       priority := if v.severity = "critical" then "high" else "medium"
       title := "High SWAP Usage Detected"
       description := v.message
       actions :=
         ["High swap usage indicates RAM pressure",
          "Increase physical RAM to reduce swap dependency",
          "Review memory-intensive applications",
          "Consider adjusting swappiness value (default: 60)"] }]
  else if strContains v.metric "Disk" then
    [{ category := "Disk"
       priority := if v.severity = "critical" then "high" else "medium"
       title := "High Disk Usage Detected"
       description := v.message
       actions :=
         ["Clean up old log files and temporary files",
          "Review and optimize log rotation policies",
          "Use ncdu or du to identify large files and directories",
          "Consider expanding disk space or adding new volumes",
          "Archive or delete old backups and snapshots"] }]
  else if strContains v.metric "Log Errors" then
    [{ category := "Logs"
       priority := if v.severity = "critical" then "high" else "medium"
       title := "High Error Count in Logs"
       description := v.message
       actions :=
         ["Review system logs for recurring error patterns",
          "Address underlying issues causing errors",
          "Monitor application health and stability",
          "Consider setting up automated alerting for critical errors"] }]
  else if strContains v.metric "Kernel" then
    [{ category := "System"
       priority := "critical"
       title := "Kernel Errors Detected"
       description := v.message
       actions :=
         ["Review kernel logs for hardware issues",
          "Check system memory and disk health",
          "Update system firmware and drivers",
          "Consider running hardware diagnostics",
          "Monitor for signs of failing hardware"] }]
  else []

/-- `RecommendationEngine._recommendations_from_violations`: the loop over
all violations, concatenating what each appends. -/
def recommendations_from_violations (violations : List Violation) :
    List Recommendation :=
  (violations.map recFromViolation).flatten

/-- Holds when the dispatch of `recFromViolation` reaches the Kernel
template: none of the five earlier substrings occurs in the metric label
and `Kernel` does. -/
def kernelBranch (v : Violation) : Bool :=
  !strContains v.metric "CPU" && !strContains v.metric "RAM" &&
  !strContains v.metric "SWAP" && !strContains v.metric "Disk" &&
  !strContains v.metric "Log Errors" && strContains v.metric "Kernel"

/-- `priority_order.get(x.get('priority', 'low'), 3)`: rank used by the
final sort; `critical` 0, `high` 1, `medium` 2, anything else (including
`low` and unknown strings) 3. -/
def priorityRank (p : String) : ℕ :=
  if p = "critical" then 0
  else if p = "high" then 1
  else if p = "medium" then 2
  else 3

/-- Sort key of one recommendation. -/
def rkey (r : Recommendation) : ℕ := priorityRank r.priority

/-- The comparison `sorted` orders by: rank of the left is at most rank of
the right. -/
def recLE (a b : Recommendation) : Prop := rkey a ≤ rkey b

instance : DecidableRel recLE := fun a b => Nat.decLe (rkey a) (rkey b)

instance : IsTotal Recommendation recLE := ⟨fun a b => Nat.le_total (rkey a) (rkey b)⟩

instance : IsTrans Recommendation recLE := ⟨fun _ _ _ h1 h2 => Nat.le_trans h1 h2⟩

/-- The deduplication loop of
`RecommendationEngine._prioritize_recommendations`, carrying the
`seen_titles` set: a recommendation whose exact title was already seen is
dropped, otherwise it is kept and its title recorded. -/
def dedupAux (seen : List String) : List Recommendation → List Recommendation
  | [] => []
  | r :: rs =>
    if seen.contains r.title then dedupAux seen rs
    else r :: dedupAux (r.title :: seen) rs

/-- `RecommendationEngine._prioritize_recommendations`: deduplicate by
title (first occurrence wins), then sort by priority rank.  Python
`sorted` is a stable sort; stable sorts of the same list under the same
key agree extensionally, so a stable insertion sort is an exact model. -/
def prioritize_recommendations (recommendations : List Recommendation) :
    List Recommendation :=
  List.insertionSort recLE (dedupAux [] recommendations)

/-- Deduplication as the claim words it: keep each list head and drop
every later entry carrying the same title, whatever its other fields. -/
def specDedup : List Recommendation → List Recommendation
  | [] => []
  | r :: rs => r :: specDedup (rs.filter (fun x => !(x.title == r.title)))
termination_by l => l.length
decreasing_by
  simp only [List.length_cons]
  exact Nat.lt_succ_of_le (List.length_filter_le _ _)

/-- Trend classification exactly as claim C1 words it (threshold is
`|mean| * 0.01`, with an absolute value) — to be compared against
`analyze_trend`, whose source applies no absolute value to the mean. -/
def classifyTrendClaim (values : List ℚ) : String :=
  if values.length < 2 then "stable"
  else
    let slope := lsSlope values
    let threshold := |listMean values| * (1 / 100)
    if |slope| < threshold then "stable"
    else if slope > 0 then "increasing"
    else "decreasing"

/-- Number of violations in a list carrying a given metric label. -/
def metricCount (vs : List Violation) (m : String) : ℕ :=
  (vs.filter (fun v => v.metric == m)).length

/-- The all-`None` statistics record (empty series). -/
def allNoneStats : Stats :=
  { min := none, max := none, mean := none, median := none, std := none }

/-- Statistics of a constant series with value `q`. -/
def statsConst (q : ℚ) : Stats :=
  { min := some q, max := some q, mean := some q, median := some q, std := some 0 }

/-- Load-average slot with no collected data. -/
def noLoadStats : LoadStats :=
  { one_min := allNoneStats, five_min := allNoneStats, fifteen_min := allNoneStats }

/-- CPU analysis with average usage 96 (constant series). -/
def cpuAnalysis96 : CpuAnalysis :=
  { usage := statsConst 96, load_average := noLoadStats, trend := some "stable" }

/-- Monthly analysis whose only content is a CPU average usage of 96. -/
def analysis96 : MonthlyAnalysis :=
  { period := none, cpu := some cpuAnalysis96, memory := none, disk := [] }

/-- Thresholds `{cpu: {critical: {avg_usage: 95}, warning: {avg_usage: 80}}}`. -/
def thresholds9680 : Thresholds :=
  { cpu := { critical := { avg_usage := some 95, max_usage := none }
             warning := { avg_usage := some 80, max_usage := none } }
    memory := { critical := { ram_usage := none, swap_usage := none }
                warning := { ram_usage := none, swap_usage := none } }
    disk := { critical := { usage := none }, warning := { usage := none } }
    logs := { critical := { error_count := none, kernel_errors := none }
              warning := { error_count := none, kernel_errors := none } } }

/-- CPU analysis with average usage exactly 100 (constant series at the
default limit the source substitutes for a missing key). -/
def cpuAnalysis100 : CpuAnalysis :=
  { usage := statsConst 100, load_average := noLoadStats, trend := some "stable" }

/-- A CPU threshold configuration with no limits configured at all. -/
def emptyCpuLimits : CpuThresholds :=
  { critical := { avg_usage := none, max_usage := none }
    warning := { avg_usage := none, max_usage := none } }

/-- Day 1 snapshot of the C7 scenario: CPU usage 10. -/
def snapDay1 : Snapshot :=
  { timestamp := some "2024-01-01"
    cpu := some { usage_percent := some 10
                  load_average := { one_min := none, five_min := none, fifteen_min := none } } }

/-- Day 2 snapshot of the C7 scenario: CPU data missing entirely. -/
def snapDay2 : Snapshot := { timestamp := some "2024-01-02", cpu := none }

/-- Day 3 snapshot of the C7 scenario: CPU usage 30. -/
def snapDay3 : Snapshot :=
  { timestamp := some "2024-01-03"
    cpu := some { usage_percent := some 30
                  load_average := { one_min := none, five_min := none, fifteen_min := none } } }

/-- Disk statistics of the `/var` partition in the C9 scenario. -/
def diskVar : DiskStats :=
  { device := some "/dev/sda2", fstype := some "ext4"
    usage_percent := { min := some 60, max := some 80, mean := some 70,
                       median := some 70, std := some 25 }
    used_bytes := allNoneStats, free_bytes := allNoneStats, trend := none }

/-- Disk statistics of the `/home` partition in the C9 scenario, with
values distinct from `/var` so the two are distinguishable. -/
def diskHome : DiskStats :=
  { device := some "/dev/sda3", fstype := some "ext4"
    usage_percent := { min := some 50, max := some 60, mean := some 55,
                       median := some 55, std := some 9 }
    used_bytes := allNoneStats, free_bytes := allNoneStats, trend := none }

/-- Monthly analysis whose disk mapping has `/var` and `/home` but no `/`. -/
def analysisVarHome : MonthlyAnalysis :=
  { period := none, cpu := none, memory := none
    disk := [("/var", diskVar), ("/home", diskHome)] }

/-- Disk statistics of a partition whose average usage is exactly 0. -/
def diskZero : DiskStats :=
  { device := none, fstype := none
    usage_percent := { min := some 0, max := some 0, mean := some 0,
                       median := some 0, std := some 0 }
    used_bytes := allNoneStats, free_bytes := allNoneStats, trend := none }

/-- Disk thresholds with a zero critical limit and a negative warning
limit — limits any nonzero usage would exceed. -/
def diskTh0 : DiskThresholds :=
  { critical := { usage := some 0 }, warning := { usage := some (-3) } }

/-- CPU analysis whose usage statistics are identically 0. -/
def cpuAnalysisZero : CpuAnalysis :=
  { usage := statsConst 0, load_average := noLoadStats, trend := none }

/-- Memory analysis whose RAM and SWAP usage statistics are identically 0. -/
def memAnalysisZero : MemAnalysis :=
  { ram := { usage_percent := statsConst 0, usage_bytes := allNoneStats, trend := none }
    swap := { usage_percent := statsConst 0, usage_bytes := allNoneStats, trend := none } }

/-- CPU thresholds with zero and negative limits. -/
def cpuLimitsNeg : CpuThresholds :=
  { critical := { avg_usage := some (-5), max_usage := some 0 }
    warning := { avg_usage := some 0, max_usage := some (-5) } }

/-- Memory thresholds with zero and negative limits. -/
def memLimitsNeg : MemoryThresholds :=
  { critical := { ram_usage := some 0, swap_usage := some (-5) }
    warning := { ram_usage := some (-5), swap_usage := some 0 } }

/-- A kernel-errors violation whose severity is only `warning`. -/
def kernelViolation : Violation :=
  { metric := "Kernel Errors", value := 7, threshold := 5,
    severity := "warning",
    message := "Kernel errors (7) exceeds critical threshold (5)" }

/-- Claim C2: the claim says an absent limit key makes the comparison
never trigger and never raises.  The code instead substitutes 100 for the
absent key and then indexes the key unconditionally inside the violation
literal: with a CPU average usage of exactly 100 and no configured
`cpu.critical.avg_usage`, the condition `100 >= 100` fires and
`critical['avg_usage']` raises `KeyError`, aborting the evaluation; for
values below the default 100 no violation is emitted and nothing raises. -/
theorem c2_missingKeyRaises :
    check_cpu_thresholds (some cpuAnalysis100) emptyCpuLimits =
      Except.error "KeyError: avg_usage" ∧
    check_cpu_thresholds (some cpuAnalysis96) emptyCpuLimits = Except.ok [] :=
  ⟨rfl, rfl⟩

/-- Claim C4: with a CPU average usage of 96 and thresholds
`{critical: {avg_usage: 95}, warning: {avg_usage: 80}}`, the evaluation
returns exactly two violations, both for metric `CPU Average Usage`, the
critical one (threshold 95) first and the warning one (threshold 80)
second — the two severity tiers are checked independently. -/
theorem c4_bothTiersFire :
    (check_all_thresholds analysis96 none thresholds9680).toOption.map
        (List.map (fun v => (v.metric, v.value, v.threshold, v.severity))) =
      some [("CPU Average Usage", (96 : ℚ), 95, "critical"),
            ("CPU Average Usage", 96, 80, "warning")] := by
  rfl

/-- Claim C7: a snapshot whose CPU field is absent is excluded from the
aggregation rather than counted as zero — with daily CPU usages
10, missing, 30 the collected series is `[10, 30]` and the resulting mean
is 20. -/
theorem c7_missingExcluded :
    collect_cpu_usage [snapDay1, snapDay2, snapDay3] = [10, 30] ∧
    (analyze_cpu_metrics [snapDay1, snapDay2, snapDay3]).usage.mean = some 20 := by
  refine ⟨rfl, ?_⟩
  show (calculate_stats [10, 30]).mean = some 20
  norm_num [calculate_stats, listMean]

/-- Claim C9: the summary projector selects the representative disk
partition by trying mountpoint `/` first, falling back to `/home`, else
producing no disk summary; in particular an analysis with mountpoints
`/var` and `/home` but no `/` yields the `/home` entry, not `/var`. -/
theorem c9_homeFallback :
    (∀ an d, List.lookup "/" an.disk = some d →
        (get_summary_statistics an).disk_summary =
          some { avg_usage := d.usage_percent.mean, max_usage := d.usage_percent.max,
                 trend := d.trend.getD "stable" }) ∧
    (∀ an d, List.lookup "/" an.disk = none → List.lookup "/home" an.disk = some d →
        (get_summary_statistics an).disk_summary =
          some { avg_usage := d.usage_percent.mean, max_usage := d.usage_percent.max,
                 trend := d.trend.getD "stable" }) ∧
    (∀ an : MonthlyAnalysis, List.lookup "/" an.disk = none →
        List.lookup "/home" an.disk = none →
        (get_summary_statistics an).disk_summary = none) ∧
    (get_summary_statistics analysisVarHome).disk_summary =
      some { avg_usage := some 55, max_usage := some 60, trend := "stable" } := by
  refine ⟨?_, ?_, ?_, rfl⟩
  · intro an d h
    simp [get_summary_statistics, h]
  · intro an d h1 h2
    simp [get_summary_statistics, h1, h2]
  · intro an h1 h2
    simp [get_summary_statistics, h1, h2]

/-- Witness for C9: the fallback conjunct applied to the concrete
`/var`-and-`/home` analysis. -/
theorem c9_witness :
    (get_summary_statistics analysisVarHome).disk_summary =
      some { avg_usage := some 55, max_usage := some 60, trend := "stable" } :=
  c9_homeFallback.2.1 analysisVarHome diskHome rfl rfl

/-- Claim C8: the disk check iterates the mountpoints but skips any whose
average usage is falsy — a partition at exactly 0% average usage produces
no disk violation under any limit configuration, and dropping it from the
iteration changes nothing. -/
theorem c8_zeroUsageSkipped (td : DiskThresholds) (mp : String) (stats : DiskStats)
    (rest : List (String × DiskStats)) (h : stats.usage_percent.mean = some 0) :
    check_disk_entry td mp stats = Except.ok [] ∧
    check_disk_thresholds ((mp, stats) :: rest) td = check_disk_thresholds rest td := by
  have he : check_disk_entry td mp stats = Except.ok [] := by
    simp [check_disk_entry, h]
  refine ⟨he, ?_⟩
  show (do
      let v ← check_disk_entry td mp stats
      let vs ← check_disk_thresholds rest td
      pure (v ++ vs)) = check_disk_thresholds rest td
  rw [he]
  cases hrest : check_disk_thresholds rest td <;> rfl

/-- Witness for C8: a zero-usage partition with a zero critical limit and
a negative warning limit still produces nothing, and its presence in the
mapping is invisible. -/
theorem c8_witness :
    check_disk_entry diskTh0 "/data" diskZero = Except.ok [] ∧
    check_disk_thresholds [("/data", diskZero), ("/var", diskVar)] diskTh0 =
      check_disk_thresholds [("/var", diskVar)] diskTh0 :=
  c8_zeroUsageSkipped diskTh0 "/data" diskZero [("/var", diskVar)] rfl

theorem exBindOk {α β : Type} (a : α) (f : α → Except String β) :
    (Except.ok a >>= f) = f a := rfl

theorem exBindErr {α β : Type} (e : String) (f : α → Except String β) :
    ((Except.error e : Except String α) >>= f) = Except.error e := rfl

theorem exPure {α : Type} (a : α) : (pure a : Except String α) = Except.ok a := rfl

theorem checkValue_zero (limit : Option ℚ) (key metric severity desc : String) :
    checkValue (some 0) limit key metric severity desc = Except.ok [] := by
  simp [checkValue]

theorem checkValue_metric {value limit : Option ℚ} {key metric severity desc : String}
    {l : List Violation}
    (h : checkValue value limit key metric severity desc = Except.ok l) :
    ∀ x ∈ l, x.metric = metric := by
  intro x hx
  unfold checkValue at h
  split at h
  · simp only [Except.ok.injEq] at h
    subst h
    simp at hx
  · split at h
    · split at h
      · simp only [Except.ok.injEq] at h
        subst h
        simp at hx
        simp [hx]
      · exact Except.noConfusion h
    · simp only [Except.ok.injEq] at h
      subst h
      simp at hx

theorem metricCount_append (a b : List Violation) (m : String) :
    metricCount (a ++ b) m = metricCount a m + metricCount b m := by
  simp [metricCount, List.filter_append]

theorem metricCount_eq_zero : ∀ {l : List Violation} {m : String},
    (∀ x ∈ l, x.metric ≠ m) → metricCount l m = 0
  | [], _, _ => rfl
  | a :: t, m, h => by
    have ha : (a.metric == m) = false :=
      beq_eq_false_iff_ne.mpr (h a (List.mem_cons_self a t))
    have ht : metricCount t m = 0 :=
      metricCount_eq_zero (fun x hx => h x (List.mem_cons_of_mem a hx))
    simp only [metricCount, List.filter_cons, ha, Bool.false_eq_true, if_false] at ht ⊢
    exact ht

theorem countTwoBinds {A B : Except String (List Violation)} {vs : List Violation}
    {target : String}
    (hok : (do
        let x ← A
        let y ← B
        pure (x ++ y)) = Except.ok vs)
    (hA : ∀ l, A = Except.ok l → ∀ x ∈ l, x.metric ≠ target)
    (hB : ∀ l, B = Except.ok l → ∀ x ∈ l, x.metric ≠ target) :
    metricCount vs target = 0 := by
  cases hA2 : A with
  | error e => rw [hA2, exBindErr] at hok; exact Except.noConfusion hok
  | ok la =>
    rw [hA2, exBindOk] at hok
    cases hB2 : B with
    | error e => rw [hB2, exBindErr] at hok; exact Except.noConfusion hok
    | ok lb =>
      rw [hB2, exBindOk] at hok
      simp only [exPure, Except.ok.injEq] at hok
      subst hok
      rw [metricCount_append,
        metricCount_eq_zero (hA la hA2), metricCount_eq_zero (hB lb hB2)]

/-- Claim C10 (implicit): the zero-skip quirk stated for disk also holds
for the CPU and memory checks — a CPU average usage, CPU maximum usage,
RAM average usage or SWAP average usage of exactly 0 produces no
violation for that particular check (its metric label never occurs among
the produced violations), whatever limits are configured, including a
limit of 0 or a negative one. -/
theorem c10_zeroValueNeverFires (tc : CpuThresholds) (tm : MemoryThresholds)
    (c : CpuAnalysis) (m : MemAnalysis) (vs ws : List Violation) :
    (c.usage.mean = some 0 → check_cpu_thresholds (some c) tc = Except.ok vs →
        metricCount vs "CPU Average Usage" = 0) ∧
    (c.usage.max = some 0 → check_cpu_thresholds (some c) tc = Except.ok vs →
        metricCount vs "CPU Maximum Usage" = 0) ∧
    (m.ram.usage_percent.mean = some 0 →
        check_memory_thresholds (some m) tm = Except.ok ws →
        metricCount ws "RAM Average Usage" = 0) ∧
    (m.swap.usage_percent.mean = some 0 →
        check_memory_thresholds (some m) tm = Except.ok ws →
        metricCount ws "SWAP Average Usage" = 0) := by
  refine ⟨?_, ?_, ?_, ?_⟩
  · intro h0 hok
    simp only [check_cpu_thresholds, h0, checkValue_zero, exBindOk,
      List.nil_append, List.append_nil] at hok
    exact countTwoBinds hok
      (fun l hl x hx => by rw [checkValue_metric hl x hx]; decide)
      (fun l hl x hx => by rw [checkValue_metric hl x hx]; decide)
  · intro h0 hok
    simp only [check_cpu_thresholds, h0, checkValue_zero, exBindOk,
      List.nil_append, List.append_nil] at hok
    exact countTwoBinds hok
      (fun l hl x hx => by rw [checkValue_metric hl x hx]; decide)
      (fun l hl x hx => by rw [checkValue_metric hl x hx]; decide)
  · intro h0 hok
    simp only [check_memory_thresholds, h0, checkValue_zero, exBindOk,
      List.nil_append, List.append_nil] at hok
    exact countTwoBinds hok
      (fun l hl x hx => by rw [checkValue_metric hl x hx]; decide)
      (fun l hl x hx => by rw [checkValue_metric hl x hx]; decide)
  · intro h0 hok
    simp only [check_memory_thresholds, h0, checkValue_zero, exBindOk,
      List.nil_append, List.append_nil] at hok
    exact countTwoBinds hok
      (fun l hl x hx => by rw [checkValue_metric hl x hx]; decide)
      (fun l hl x hx => by rw [checkValue_metric hl x hx]; decide)

/-- Witness for C10: all-zero CPU and memory statistics checked against
zero and negative limits produce no violations at all. -/
theorem c10_witness : metricCount [] "CPU Average Usage" = 0 :=
  (c10_zeroValueNeverFires cpuLimitsNeg memLimitsNeg cpuAnalysisZero
    memAnalysisZero [] []).1 rfl rfl

/-- Claim C5: in the recommendations generated from violations, a
violation dispatched to the Kernel template gets priority `critical`
whatever its severity; every violation dispatched to any other template
gets `high` when its severity is `critical` and `medium` otherwise (and
an unmatched metric label produces nothing). -/
theorem c5_kernelAlwaysCritical :
    (∀ vs, recommendations_from_violations vs = (vs.map recFromViolation).flatten) ∧
    (∀ v, kernelBranch v = true →
        (recFromViolation v).map Recommendation.priority = ["critical"]) ∧
    (∀ v, kernelBranch v = false →
        (recFromViolation v).map Recommendation.priority = [] ∨
        (recFromViolation v).map Recommendation.priority =
          [if v.severity = "critical" then "high" else "medium"]) := by
  refine ⟨fun vs => rfl, ?_, ?_⟩
  · intro v h
    simp only [kernelBranch, Bool.and_eq_true, Bool.not_eq_true'] at h
    obtain ⟨⟨⟨⟨⟨h1, h2⟩, h3⟩, h4⟩, h5⟩, h6⟩ := h
    simp [recFromViolation, h1, h2, h3, h4, h5, h6]
  · intro v h
    by_cases h1 : strContains v.metric "CPU" = true
    · right; simp [recFromViolation, h1]
    · by_cases h2 : strContains v.metric "RAM" = true
      · right; simp [recFromViolation, h1, h2]
      · by_cases h3 : strContains v.metric "SWAP" = true
        · right; simp [recFromViolation, h1, h2, h3]
        · by_cases h4 : strContains v.metric "Disk" = true
          · right; simp [recFromViolation, h1, h2, h3, h4]
          · by_cases h5 : strContains v.metric "Log Errors" = true
            · right; simp [recFromViolation, h1, h2, h3, h4, h5]
            · by_cases h6 : strContains v.metric "Kernel" = true
              · exfalso; simp [kernelBranch, h1, h2, h3, h4, h5, h6] at h
              · left; simp [recFromViolation, h1, h2, h3, h4, h5, h6]

/-- Witness for C5: a `Kernel Errors` violation whose severity is only
`warning` still yields a `critical`-priority recommendation. -/
theorem c5_witness :
    (recFromViolation kernelViolation).map Recommendation.priority = ["critical"] :=
  c5_kernelAlwaysCritical.2.1 kernelViolation (by decide)

theorem dedupAux_eq (seen : List String) (rs : List Recommendation) :
    dedupAux seen rs = specDedup (rs.filter (fun x => !(seen.contains x.title))) := by
  induction rs generalizing seen with
  | nil => simp [dedupAux, specDedup]
  | cons r rs ih =>
    by_cases h : r.title ∈ seen
    · rw [show dedupAux seen (r :: rs) = dedupAux seen rs from by simp [dedupAux, h]]
      rw [ih seen]
      congr 1
      simp [List.filter_cons, h]
    · rw [show dedupAux seen (r :: rs) = r :: dedupAux (r.title :: seen) rs from by
        simp [dedupAux, h]]
      rw [ih (r.title :: seen)]
      rw [show (r :: rs).filter (fun x => !(seen.contains x.title)) =
          r :: rs.filter (fun x => !(seen.contains x.title)) from by
        simp [List.filter_cons, h]]
      rw [show specDedup (r :: rs.filter (fun x => !(seen.contains x.title))) =
          r :: specDedup ((rs.filter (fun x => !(seen.contains x.title))).filter
            (fun x => !(x.title == r.title))) from by rw [specDedup]]
      congr 1
      rw [List.filter_filter]
      apply congrArg specDedup
      apply List.filter_congr
      intro a _
      by_cases hx : a.title = r.title <;> by_cases hs : a.title ∈ seen <;>
        simp [List.contains_cons, hx, hs]

theorem dedup_eq_specDedup (recs : List Recommendation) :
    dedupAux [] recs = specDedup recs := by
  rw [dedupAux_eq]
  simp

theorem filter_orderedInsert (k : ℕ) (a : Recommendation) (l : List Recommendation) :
    (List.orderedInsert recLE a l).filter (fun r => rkey r == k) =
      if rkey a = k then a :: l.filter (fun r => rkey r == k)
      else l.filter (fun r => rkey r == k) := by
  induction l with
  | nil =>
    by_cases h : rkey a = k <;> simp [List.orderedInsert, List.filter_cons, h]
  | cons b l ih =>
    by_cases hab : recLE a b
    · by_cases h : rkey a = k <;>
        by_cases hbk : rkey b = k <;>
          simp [List.orderedInsert, hab, List.filter_cons, h, hbk]
    · have hab2 : ¬ rkey a ≤ rkey b := hab
      have hb : rkey b < rkey a := Nat.lt_of_not_le hab2
      by_cases h : rkey a = k
      · have hbk : ¬ rkey b = k := by omega
        simp [List.orderedInsert, hab, List.filter_cons, h, hbk, ih]
      · by_cases hbk : rkey b = k <;>
          simp [List.orderedInsert, hab, List.filter_cons, h, hbk, ih]

theorem filter_insertionSort (k : ℕ) (l : List Recommendation) :
    (List.insertionSort recLE l).filter (fun r => rkey r == k) =
      l.filter (fun r => rkey r == k) := by
  induction l with
  | nil => rfl
  | cons a l ih =>
    by_cases h : rkey a = k <;>
      simp [List.insertionSort, filter_orderedInsert, h, ih, List.filter_cons]

/-- Claim C6: the final recommendation list equals the candidate list
after deduplication keeping only the first occurrence of each exact title
(later entries with the same title are dropped whatever their other
fields), followed by a stable sort on the priority rank
critical(0) < high(1) < medium(2) < low(3): the output is sorted by rank,
contains exactly the deduplicated entries, preserves the original
relative order inside every rank class, and any unknown priority string
ranks as `low`. -/
theorem c6_dedupThenStableSort (recs : List Recommendation) :
    prioritize_recommendations recs = List.insertionSort recLE (specDedup recs) ∧
    List.Sorted recLE (prioritize_recommendations recs) ∧
    (∀ k : ℕ, (prioritize_recommendations recs).filter (fun r => rkey r == k) =
        (specDedup recs).filter (fun r => rkey r == k)) ∧
    List.Perm (prioritize_recommendations recs) (specDedup recs) ∧
    (∀ p : String, p ≠ "critical" → p ≠ "high" → p ≠ "medium" →
        priorityRank p = priorityRank "low") := by
  refine ⟨?_, ?_, ?_, ?_, ?_⟩
  · unfold prioritize_recommendations
    rw [dedup_eq_specDedup]
  · exact List.sorted_insertionSort recLE (dedupAux [] recs)
  · intro k
    unfold prioritize_recommendations
    rw [filter_insertionSort, dedup_eq_specDedup]
  · unfold prioritize_recommendations
    rw [dedup_eq_specDedup]
    exact List.perm_insertionSort recLE (specDedup recs)
  · intro p hp1 hp2 hp3
    simp [priorityRank, hp1, hp2, hp3]

/-- Witness for C6: the unknown priority string `warning` ranks exactly
as `low` does. -/
theorem c6_witness : priorityRank "warning" = priorityRank "low" :=
  (c6_dedupThenStableSort []).2.2.2.2 "warning" (by decide) (by decide) (by decide)

theorem listMin_le_mem : ∀ (xs : List ℚ) (x : ℚ), ∀ r ∈ x :: xs, listMin x xs ≤ r
  | [], x, r, hr => by
    simp at hr
    simp [listMin, hr]
  | b :: t, x, r, hr => by
    have hfold : listMin x (b :: t) = listMin (Min.min x b) t := rfl
    have hh := listMin_le_mem t (Min.min x b) (Min.min x b) (List.mem_cons_self _ _)
    rcases List.mem_cons.mp hr with h1 | h2
    · rw [hfold, h1]
      exact le_trans hh (min_le_left x b)
    · rcases List.mem_cons.mp h2 with h3 | h4
      · rw [hfold, h3]
        exact le_trans hh (min_le_right x b)
      · rw [hfold]
        exact listMin_le_mem t (Min.min x b) r (List.mem_cons_of_mem _ h4)

theorem le_listMax_mem : ∀ (xs : List ℚ) (x : ℚ), ∀ r ∈ x :: xs, r ≤ listMax x xs
  | [], x, r, hr => by
    simp at hr
    simp [listMax, hr]
  | b :: t, x, r, hr => by
    have hfold : listMax x (b :: t) = listMax (Max.max x b) t := rfl
    have hh := le_listMax_mem t (Max.max x b) (Max.max x b) (List.mem_cons_self _ _)
    rcases List.mem_cons.mp hr with h1 | h2
    · rw [hfold, h1]
      exact le_trans (le_max_left x b) hh
    · rcases List.mem_cons.mp h2 with h3 | h4
      · rw [hfold, h3]
        exact le_trans (le_max_right x b) hh
      · rw [hfold]
        exact le_listMax_mem t (Max.max x b) r (List.mem_cons_of_mem _ h4)

theorem len_mul_le_sum (m : ℚ) : ∀ l : List ℚ, (∀ r ∈ l, m ≤ r) →
    (l.length : ℚ) * m ≤ l.sum
  | [], _ => by simp
  | a :: t, h => by
    have h1 : m ≤ a := h a (List.mem_cons_self a t)
    have h2 : (t.length : ℚ) * m ≤ t.sum :=
      len_mul_le_sum m t (fun r hr => h r (List.mem_cons_of_mem a hr))
    simp only [List.length_cons, List.sum_cons]
    push_cast
    nlinarith

theorem sum_le_len_mul (m : ℚ) : ∀ l : List ℚ, (∀ r ∈ l, r ≤ m) →
    l.sum ≤ (l.length : ℚ) * m
  | [], _ => by simp
  | a :: t, h => by
    have h1 : a ≤ m := h a (List.mem_cons_self a t)
    have h2 : t.sum ≤ (t.length : ℚ) * m :=
      sum_le_len_mul m t (fun r hr => h r (List.mem_cons_of_mem a hr))
    simp only [List.length_cons, List.sum_cons]
    push_cast
    nlinarith

theorem listMin_le_mean (x : ℚ) (xs : List ℚ) : listMin x xs ≤ listMean (x :: xs) := by
  have hlen : (0 : ℚ) < (((x :: xs).length : ℕ) : ℚ) := by
    exact_mod_cast Nat.succ_pos xs.length
  rw [listMean, le_div_iff₀ hlen, mul_comm]
  exact len_mul_le_sum (listMin x xs) (x :: xs) (listMin_le_mem xs x)

theorem mean_le_listMax (x : ℚ) (xs : List ℚ) : listMean (x :: xs) ≤ listMax x xs := by
  have hlen : (0 : ℚ) < (((x :: xs).length : ℕ) : ℚ) := by
    exact_mod_cast Nat.succ_pos xs.length
  rw [listMean, div_le_iff₀ hlen, mul_comm]
  exact sum_le_len_mul (listMax x xs) (x :: xs) (le_listMax_mem xs x)

theorem median_bounds (x : ℚ) (xs : List ℚ) :
    listMin x xs ≤ listMedian (x :: xs) ∧ listMedian (x :: xs) ≤ listMax x xs := by
  have hperm : List.Perm (sortQ (x :: xs)) (x :: xs) :=
    List.perm_insertionSort (· ≤ ·) (x :: xs)
  have hpos : 0 < (sortQ (x :: xs)).length := by
    rw [hperm.length_eq]
    simp
  have hmem : ∀ r ∈ sortQ (x :: xs), listMin x xs ≤ r ∧ r ≤ listMax x xs := by
    intro r hr
    have hr2 : r ∈ x :: xs := hperm.mem_iff.mp hr
    exact ⟨listMin_le_mem xs x r hr2, le_listMax_mem xs x r hr2⟩
  by_cases hodd : (sortQ (x :: xs)).length % 2 = 1
  · have hi : (sortQ (x :: xs)).length / 2 < (sortQ (x :: xs)).length :=
      Nat.div_lt_self hpos (by norm_num)
    simp only [listMedian, hodd, if_true]
    rw [List.getD_eq_getElem _ 0 hi]
    exact hmem _ (List.getElem_mem hi)
  · have hi2 : (sortQ (x :: xs)).length / 2 < (sortQ (x :: xs)).length :=
      Nat.div_lt_self hpos (by norm_num)
    have hi1 : (sortQ (x :: xs)).length / 2 - 1 < (sortQ (x :: xs)).length := by omega
    simp only [listMedian, hodd, if_false]
    rw [List.getD_eq_getElem _ 0 hi1, List.getD_eq_getElem _ 0 hi2]
    have h1 := hmem _ (List.getElem_mem hi1)
    have h2 := hmem _ (List.getElem_mem hi2)
    constructor
    · linarith [h1.1, h2.1]
    · linarith [h1.2, h2.2]

/-- Claim C3: for every non-empty series, the summary returned by
`_calculate_stats` satisfies `min <= mean <= max` and
`min <= median <= max`. -/
theorem c3_statsBounds (x : ℚ) (xs : List ℚ) (mn mx me md : ℚ)
    (hmn : (calculate_stats (x :: xs)).min = some mn)
    (hmx : (calculate_stats (x :: xs)).max = some mx)
    (hme : (calculate_stats (x :: xs)).mean = some me)
    (hmd : (calculate_stats (x :: xs)).median = some md) :
    mn ≤ me ∧ me ≤ mx ∧ mn ≤ md ∧ md ≤ mx := by
  simp only [calculate_stats, Option.some.injEq] at hmn hmx hme hmd
  subst hmn hmx hme hmd
  exact ⟨listMin_le_mean x xs, mean_le_listMax x xs,
    (median_bounds x xs).1, (median_bounds x xs).2⟩

/-- Witness for C3: the summary of `[3, 1, 2]` has min 1, max 3, mean 2,
median 2, and the four inequalities hold there. -/
theorem c3_witness : (1 : ℚ) ≤ 2 ∧ (2 : ℚ) ≤ 3 ∧ (1 : ℚ) ≤ 2 ∧ (2 : ℚ) ≤ 3 :=
  c3_statsBounds 3 [1, 2] 1 3 2 2 (by decide) (by decide)
    (by norm_num [calculate_stats, listMean]) (by decide)

/-- Counterexample to claim C1 as stated: on the series `[-100, -101]`
the least-squares slope is `-1` and the mean is `-100.5`, so the claim's
threshold `|mean| * 0.01 = 1.005` exceeds `|slope| = 1` and the claim
predicts `stable`; the source multiplies the signed mean by `0.01`,
getting the negative threshold `-1.005` that no `|slope|` is below, and
returns `decreasing`. -/
theorem c1_counterexample :
    classifyTrendClaim [-100, -101] = "stable" ∧
    analyze_trend [-100, -101] = "decreasing" := by
  have habs : ∀ q : ℚ, 0 ≤ q → |q| = q := fun q hq => abs_of_nonneg hq
  have habsn : ∀ q : ℚ, q ≤ 0 → |q| = -q := fun q hq => abs_of_nonpos hq
  constructor <;>
    norm_num [classifyTrendClaim, analyze_trend, lsSlope, idxFrom, listMean,
      habs, habsn]

/-- Claim C1 amended: `classifyTrend` returns `stable` for fewer than two
points; otherwise, with `slope` the first-degree least-squares coefficient
against indices `0..n-1` and threshold equal to `(mean of the series) *
0.01` — the signed mean, with no absolute value — it returns `stable`
when `|slope| < threshold`, `increasing` when `|slope| >= threshold` and
`slope > 0`, and `decreasing` otherwise. -/
theorem c1_trendAmended (values : List ℚ) :
    (values.length < 2 → analyze_trend values = "stable") ∧
    (2 ≤ values.length → analyze_trend values =
      (if |lsSlope values| < listMean values * (1 / 100) then "stable"
       else if lsSlope values > 0 then "increasing"
       else "decreasing")) := by
  constructor
  · intro h
    simp [analyze_trend, h]
  · intro h
    have h2 : ¬ values.length < 2 := by omega
    simp only [analyze_trend, h2, if_false]

/-- Witness for C1: on `[10, 20, 30]` the slope is 10, the mean is 20,
the threshold is `0.2`, and the amended classification gives
`increasing`. -/
theorem c1_witness : analyze_trend [10, 20, 30] = "increasing" := by
  have h := (c1_trendAmended [10, 20, 30]).2 (by norm_num)
  rw [h]
  norm_num [lsSlope, idxFrom, listMean]

end Report
